import Mathlib

/-!
Verification of the RS-485 switch integration
(`homeassistant/components/rs485_switch`): a shallow embedding of the
Modbus-style message codec, the TCP publisher's send/backoff/read-loop
logic, the pub/sub fan-out, and the per-switch state machine, together
with theorems settling the specification's claims about them.

Byte strings are modelled as `List Nat` (each element a byte value);
Python exceptions are modelled by the `PyErr` error type of an `Except`
result.  Python integers appearing here are nonnegative (slave ids,
registers, counts), so `Nat` is used throughout.
-/

/-- Python exceptions that the modelled code paths can raise. -/
inductive PyErr where
  | valueError
  | indexError
  | unboundLocal
  | attributeError
  deriving Repr, DecidableEq

/-- `bytes([n])` validates its argument: a value outside 0..255 raises
`ValueError`.  (Negative values cannot arise here since inputs are `Nat`.) -/
def pyByte (n : Nat) : Except PyErr Nat :=
  if n < 256 then .ok n else .error .valueError

/-- Embeds `_construct_modbus_message` from `rs485_tcp_publisher.py`
(lines 38-68).  Header is `00 00 00 00 00 06` + slave byte; function
codes 3/4 with a `length` argument and function code 6 with a `value`
argument build a 12-byte frame; any other combination leaves the local
variable `message` unassigned, so `return message` raises
`UnboundLocalError`. -/
def _construct_modbus_message (slave function_code register : Nat)
    (value length : Option Nat) : Except PyErr (List Nat) := do
  let s ← pyByte slave
  let f ← pyByte function_code
  let header : List Nat := [0, 0, 0, 0, 0, 6, s]
  let register_high := register >>> 8
  let register_low := register &&& 255
  if (function_code = 3 ∨ function_code = 4) ∧ length.isSome then
    match length with
    | some len =>
      let rh ← pyByte register_high
      let rl ← pyByte register_low
      let length_high ← pyByte (len >>> 8)
      let length_low ← pyByte (len &&& 255)
      pure (header ++ [f, rh, rl, length_high, length_low])
    | none => .error .unboundLocal
  else if function_code = 6 ∧ value.isSome then
    match value with
    | some v =>
      let rh ← pyByte register_high
      let rl ← pyByte register_low
      let value_high ← pyByte (v >>> 8)
      let value_low ← pyByte (v &&& 255)
      pure (header ++ [f, rh, rl, value_high, value_low])
    | none => .error .unboundLocal
  else
    .error .unboundLocal

/-- Embeds `RS485Switch._binary_list_to_int` from `switch.py` (lines
96-101): `(binary_list[0] <<< 8) + (binary_list[1] &&& 0xFF)`; indexing a
list with fewer than two elements raises `IndexError`. -/
def _binary_list_to_int (binary_list : List Nat) : Except PyErr Nat :=
  match binary_list with
  | high_byte :: low_byte :: _ => .ok ((high_byte <<< 8) + (low_byte &&& 255))
  | _ => .error .indexError

/-- Python's `l[-2:]`: the last two elements of a list (the whole list
when it has fewer than two elements). -/
def pyLastTwo (l : List Nat) : List Nat :=
  l.drop (l.length - 2)

/-- Python's `l[len(l)-1]` (equivalently `l[-1]`): the final element, an
`IndexError` on an empty list. -/
def pyLast (l : List Nat) : Except PyErr Nat :=
  match l.getLast? with
  | some x => .ok x
  | none => .error .indexError

/-! ### Constants from `const.py` -/

/-- `DEFAULT_STATE` from `const.py`: the state-space modulus (256). -/
def DEFAULT_STATE : Nat := 256

/-- `PLACEHOLDER` from `const.py`: the 8-character zero padding string. -/
def PLACEHOLDER : List Char := ['0', '0', '0', '0', '0', '0', '0', '0']

/-- `REGISTER_ADDRESS` from `const.py` (`0x1008`). -/
def REGISTER_ADDRESS : Nat := 0x1008

/-! ### Per-switch state machine (`switch.py`) -/

/-- The per-config-entry shared data touched by the switch entity:
`hass.data[DOMAIN][entry_id][CONF_SWITCHES]` (the currently active
switch index) and `hass.data[DOMAIN][entry_id][CONF_STATE]` (the shared
register bitfield). -/
structure EntryData where
  switches : Nat
  state : Nat
  deriving Repr, DecidableEq

/-- The identity of one `RS485Switch` entity: its slave address and its
1-based switch index. -/
structure SwitchSelf where
  slave : Nat
  index : Nat
  deriving Repr, DecidableEq

/-- Embeds the state recomputation of `RS485Switch.async_update`
(`switch.py` lines 209-223): `state_str = bin(state % DEFAULT_STATE)[2:]`,
left-pad with `PLACEHOLDER` to 8 characters, reverse, and test whether
the character at position `index - 1` is `'1'`.  `Nat.toDigits 2 n`
renders exactly Python's `bin(n)[2:]` for `n ≥ 0`.  Indexing the
reversed string out of range raises `IndexError`; the model requires
`1 ≤ index` (the integration creates indices 1..6, and Python's negative
indexing for `index = 0` is not modelled). -/
def async_update_is_on (state index : Nat) : Except PyErr Bool :=
  let state_str := Nat.toDigits 2 (state % DEFAULT_STATE)
  let binary_string := PLACEHOLDER.take (PLACEHOLDER.length - state_str.length) ++ state_str
  match binary_string.reverse.get? (index - 1) with
  | some c => .ok (c = '1')
  | none => .error .indexError

/-- Python's `int(math.log(x, 2))` as used in `_subscribe_callback`:
raises `ValueError` (math domain error) for `x = 0`; for `x > 0` it is
the truncated base-2 logarithm, modelled by `Nat.log2` (exact for the
powers of two this code path expects; double-precision rounding of
`math.log` is not modelled, and no claim depends on the positive case). -/
def int_math_log2 (x : Nat) : Except PyErr Nat :=
  if x = 0 then .error .valueError else .ok (Nat.log2 x)

/-- The observable outcome of one `_subscribe_callback` invocation that
did not raise: the updated entry data, whether the `length = 6` branch
re-issued a `read_register`, the `_is_on` flag after the trailing
`async_update`, and whether the frame was dropped as too short. -/
structure CallbackResult where
  entry : EntryData
  readIssued : Bool
  is_on : Bool
  shortFrame : Bool
  deriving Repr, DecidableEq

/-- Embeds `RS485Switch._subscribe_callback` (`switch.py` lines 137-185).
A frame with fewer than 8 bytes is logged and dropped (no state change,
no `async_update`).  Otherwise `length, slave, function_code, *last =
data[5:]`; when `length = 6` and `function_code = 3` the active switch
index becomes `int(math.log(last[-1], 2)) + 1` (raising on `last[-1]`
of an empty payload or `math.log(0, 2)`); then, for frames from this
entity's slave, the shared state is overwritten from the last two
payload bytes according to the function-code/length cases of the source,
and finally `async_update` recomputes `_is_on`. -/
def _subscribe_callback (self : SwitchSelf) (entry : EntryData) (is_on : Bool)
    (data : List Nat) : Except PyErr CallbackResult :=
  match data with
  | _b0 :: _b1 :: _b2 :: _b3 :: _b4 :: length :: slave :: function_code :: last => do
    let entry1 ←
      if length = 6 ∧ function_code = 3 then do
        let x ← pyLast last
        let lg ← int_math_log2 x
        pure { entry with switches := lg + 1 }
      else
        pure entry
    let switch_index := entry1.switches
    let (entry2, readIssued) ←
      if slave = self.slave then
        if switch_index = self.index then
          if function_code = 3 then
            if length = 5 then do
              let v ← _binary_list_to_int (pyLastTwo last)
              pure ({ entry1 with state := v }, false)
            else if length = 6 then
              pure (entry1, true)
            else
              pure (entry1, false)
          else if function_code = 6 then do
            let v ← _binary_list_to_int (pyLastTwo last)
            pure ({ entry1 with state := v }, false)
          else
            pure (entry1, false)
        else if (function_code = 3 ∧ length = 5) ∨ function_code = 6 then do
          let v ← _binary_list_to_int (pyLastTwo last)
          pure ({ entry1 with state := v }, false)
        else
          pure (entry1, false)
      else
        pure (entry1, false)
    let newIsOn ← async_update_is_on entry2.state self.index
    pure { entry := entry2, readIssued := readIssued, is_on := newIsOn,
           shortFrame := false }
  | _ =>
    .ok { entry := entry, readIssued := false, is_on := is_on, shortFrame := true }

/-- Embeds `RS485Switch._handle_switch` (`switch.py` lines 125-135) from
the point where the settle delay has elapsed: `entry.state` is the shared
register value read back after `read_register` and the 100ms sleep.  The
active index is recorded, `value = state ^ index` (XOR with the raw
1-based index), a write-register frame for `value` is constructed, and
the shared state becomes `value`.  Returns the updated entry data, the
frame handed to `_send_message`, and the new `_is_on`. -/
def _handle_switch (self : SwitchSelf) (entry : EntryData) (is_on : Bool) :
    Except PyErr (EntryData × List Nat × Bool) := do
  let entry1 := { entry with switches := self.index }
  let state := entry1.state
  let value := state ^^^ self.index
  let msg ← _construct_modbus_message self.slave 6 REGISTER_ADDRESS (some value) none
  pure ({ entry1 with state := value }, msg, is_on)

/-! ### Connection manager and pub/sub hub (`rs485_tcp_publisher.py`,
`rs485_tcp_pub_sub.py`) -/

/-- The state of `self.writer` at the time `_send_message` runs: no
writer at all, a writer whose transport is closing, or a live writer. -/
inductive WriterState where
  | noWriter
  | closing
  | live
  deriving Repr, DecidableEq

/-- The observable effects of one `RS485TcpPublisher._send_message` call
(`rs485_tcp_publisher.py` lines 88-102).  `errorLogged` records an
ERROR-level log; `bytesWritten` is what reached `writer.write`;
`raisedToCaller` records whether the coroutine raised to its awaiter
(the Python function always returns `None`, so an exception is the only
caller-visible failure channel). -/
structure SendEffects where
  errorLogged : Bool
  bytesWritten : Option (List Nat)
  raisedToCaller : Bool
  deriving Repr, DecidableEq

/-- Embeds `RS485TcpPublisher._send_message`: with no writer or a
closing writer it logs an error and returns; otherwise it writes the
message, and any exception from `write`/`drain` (`writeRaises`) is
caught and logged.  No path raises to the caller and no path queues or
retries the message. -/
def _send_message (w : WriterState) (writeRaises : Bool) (message : List Nat) :
    SendEffects :=
  match w with
  | .noWriter => { errorLogged := true, bytesWritten := none, raisedToCaller := false }
  | .closing => { errorLogged := true, bytesWritten := none, raisedToCaller := false }
  | .live =>
      if writeRaises then
        { errorLogged := true, bytesWritten := none, raisedToCaller := false }
      else
        { errorLogged := false, bytesWritten := some message, raisedToCaller := false }

/-- One observable outcome of a connect attempt in `_handle_connection`:
either the attempt fails (timeout or I/O error), or it succeeds and
`_manage_connection` runs until the connection ends. -/
inductive ConnEvent where
  | fail
  | session
  deriving Repr, DecidableEq

/-- One iteration of the `while self.running` loop of
`RS485TcpPublisher._handle_connection` (lines 128-154), returning the
`asyncio.sleep` duration performed in the `finally` block and the
`retry_delay` passed to the next iteration.  On a failed connect the
`finally` block sleeps the current `retry_delay` and doubles it (capped
at `max_retry_delay`); on a successful connect `retry_delay` is reset to
1 before `_manage_connection`, and when the connection ends the same
`finally` block sleeps that reset value and doubles it. -/
def handle_connection_iter (max_retry_delay retry_delay : Nat) (e : ConnEvent) :
    Nat × Nat :=
  match e with
  | .fail => (retry_delay, min (retry_delay * 2) max_retry_delay)
  | .session =>
      let retry_delay := 1
      (retry_delay, min (retry_delay * 2) max_retry_delay)

/-- The list of backoff sleeps performed by the connection loop across a
sequence of connect outcomes, starting from delay `d`. -/
def handle_connection_run (max_retry_delay d : Nat) : List ConnEvent → List Nat
  | [] => []
  | e :: es =>
      let (s, d2) := handle_connection_iter max_retry_delay d e
      s :: handle_connection_run max_retry_delay d2 es

/-- The sleeps of a full run of `_handle_connection`, which initialises
`retry_delay = 1`. -/
def handle_connection_sleeps (max_retry_delay : Nat) (events : List ConnEvent) :
    List Nat :=
  handle_connection_run max_retry_delay 1 events

/-- The decision taken by one iteration of the read loop in
`RS485TcpPublisher._manage_connection` (lines 156-165) for the chunk a
socket read returned: an empty read breaks out to reconnect, any other
chunk — with no length check — is passed to `_publish`. -/
inductive ReadLoopAction where
  | breakLoop
  | publishFrame (data : List Nat)
  deriving Repr, DecidableEq

/-- Embeds the body of the `while True` read loop of
`_manage_connection`: `if not data: break` else `await
self._publish(tuple(data))`. -/
def manage_connection_step (data : List Nat) : ReadLoopAction :=
  if data = [] then .breakLoop else .publishFrame data

/-- A subscriber callback as the pub/sub hub sees it: given the frame it
either completes or raises (the exception text). -/
def Callback : Type := List Nat → Except String Unit

/-- `asyncio.Task` objects have no `callback_id` attribute, so the
expression `task.callback_id` in `RS485TcpPubSub._publish`'s logging
loop raises `AttributeError`. -/
def task_callback_id : Except PyErr String := .error .attributeError

/-- Embeds `RS485TcpPubSub._publish` (`rs485_tcp_pub_sub.py` lines
45-57): one task per subscriber is created under the lock, then
`asyncio.gather(*tasks, return_exceptions=True)` collects every
callback's outcome; the following loop logs each exceptional result with
`task.callback_id` — an attribute `asyncio.Task` does not have — so the
first exceptional result makes `_publish` itself raise `AttributeError`.
On success it returns the gathered outcomes. -/
def pubsub_publish (subs : List (String × Callback)) (data : List Nat) :
    Except PyErr (List (Except String Unit)) := do
  let results := subs.map (fun p => p.2 data)
  for r in results do
    match r with
    | .error _ =>
        let _ ← task_callback_id
        pure ()
    | .ok _ => pure ()
  pure results

/-- The primitive steps `_publish` performs, in order, used to compare
the two hub variants' control flow. -/
inductive PubAction where
  | acquireLock
  | createTask (id : String)
  | releaseLock
  | gatherAwait (ids : List String)
  deriving Repr, DecidableEq

/-- The ordered actions of `RS485TcpPublisher._publish` (lines 114-126):
take the lock, create one task per subscriber, release the lock, and
return.  The `asyncio.gather` join and the error-logging loop are
commented out in the source, so no created task is awaited before
`_publish` returns. -/
def publisher_publish_actions (ids : List String) : List PubAction :=
  [PubAction.acquireLock] ++ ids.map PubAction.createTask ++ [PubAction.releaseLock]

/-- The ordered actions of `RS485TcpPubSub._publish` (lines 45-57): as
above, but followed by `await asyncio.gather(*tasks, ...)`, which joins
every created task before `_publish` returns. -/
def pubsub_publish_actions (ids : List String) : List PubAction :=
  [PubAction.acquireLock] ++ ids.map PubAction.createTask ++ [PubAction.releaseLock]
    ++ [PubAction.gatherAwait ids]

/-- The ids of the tasks a `_publish` action list creates. -/
def createdTasks : List PubAction → List String
  | [] => []
  | .createTask id :: rest => id :: createdTasks rest
  | _ :: rest => createdTasks rest

/-- The ids of the tasks a `_publish` action list awaits before
returning. -/
def awaitedTasks : List PubAction → List String
  | [] => []
  | .gatherAwait ids :: rest => ids ++ awaitedTasks rest
  | _ :: rest => awaitedTasks rest

/-! ### Helper lemmas -/

/-- Masking with `0xFF` is reduction modulo 256. -/
theorem and255_eq_mod (y : Nat) : y &&& 255 = y % 256 := by
  have h := Nat.and_pow_two_sub_one_eq_mod y 8
  norm_num at h
  exact h

/-- A masked byte is below 256. -/
theorem and255_lt (y : Nat) : y &&& 255 < 256 := by
  rw [and255_eq_mod]
  exact Nat.mod_lt _ (by norm_num)

/-- The high byte of a 16-bit value is below 256. -/
theorem shiftRight8_lt {x : Nat} (h : x < 65536) : x >>> 8 < 256 := by
  rw [Nat.shiftRight_eq_div_pow]
  norm_num
  omega

/-- Splitting a value into high byte and masked low byte and recombining
big-endian is the identity. -/
theorem byte_pair_recombine (x : Nat) :
    ((x >>> 8) <<< 8) + ((x &&& 255) &&& 255) = x := by
  rw [Nat.shiftLeft_eq, Nat.shiftRight_eq_div_pow, and255_eq_mod, and255_eq_mod]
  norm_num
  omega

/-! ### Claim theorems -/

/-- C1: for every valid request (slave < 256, function code 3 or 6,
register < 2^16, and a 16-bit length for code 3 or value for code 6),
the frame produced by `_construct_modbus_message` decodes — byte 6 as
slave, byte 7 as function code, last two payload bytes big-endian as the
value — back to the slave address, the function code, and the
length/value field exactly. -/
theorem codec_roundtrip (slave fc register x : Nat) (hs : slave < 256)
    (hf : fc = 3 ∨ fc = 6) (hr : register < 65536) (hx : x < 65536) :
    ∃ msg, _construct_modbus_message slave fc register
        (if fc = 6 then some x else none) (if fc = 3 then some x else none)
        = .ok msg ∧
      msg.get? 6 = some slave ∧ msg.get? 7 = some fc ∧
      _binary_list_to_int (pyLastTwo (msg.drop 8)) = .ok x := by
  have hrh : register >>> 8 < 256 := shiftRight8_lt hr
  have hxh : x >>> 8 < 256 := shiftRight8_lt hx
  rcases hf with rfl | rfl
  · refine ⟨[0, 0, 0, 0, 0, 6, slave, 3, register >>> 8, register &&& 255,
      x >>> 8, x &&& 255], ?_, by simp, by simp, ?_⟩
    · simp [_construct_modbus_message, pyByte, hs, hrh, hxh, and255_lt, bind, Except.bind, pure, Except.pure]
    · simp [pyLastTwo, _binary_list_to_int, byte_pair_recombine]
  · refine ⟨[0, 0, 0, 0, 0, 6, slave, 6, register >>> 8, register &&& 255,
      x >>> 8, x &&& 255], ?_, by simp, by simp, ?_⟩
    · simp [_construct_modbus_message, pyByte, hs, hrh, hxh, and255_lt, bind, Except.bind, pure, Except.pure]
    · simp [pyLastTwo, _binary_list_to_int, byte_pair_recombine]

/-- C1 witness: the round-trip at slave 1, function code 3, register
`0x1008`, length 1. -/
theorem codec_roundtrip_witness :
    ∃ msg, _construct_modbus_message 1 3 4104 none (some 1) = .ok msg ∧
      msg.get? 6 = some 1 ∧ msg.get? 7 = some 3 ∧
      _binary_list_to_int (pyLastTwo (msg.drop 8)) = .ok 1 := by
  simpa using codec_roundtrip 1 3 4104 1 (by norm_num) (Or.inl rfl)
    (by norm_num) (by norm_num)

/-- C8: an encode request whose function code is neither 3 nor 6 does
not fail cleanly with an `UnsupportedFunction` error: function code 5
(with no value/length) leaves the local `message` unassigned so the
function raises `UnboundLocalError` — likewise code 6 without a value —
while function code 4 with a length is accepted and returns a full read
frame. -/
theorem unsupported_function_crashes :
    _construct_modbus_message 1 5 0 none none = .error .unboundLocal ∧
    _construct_modbus_message 1 6 4104 none none = .error .unboundLocal ∧
    _construct_modbus_message 1 4 4104 none (some 1)
      = .ok [0, 0, 0, 0, 0, 6, 1, 4, 16, 8, 0, 1] := by
  refine ⟨rfl, rfl, ?_⟩
  rfl

deriving instance DecidableEq for Except

set_option maxRecDepth 10000 in
/-- For register values below the modulus, the string pipeline of
`async_update` (render in binary, left-pad to 8, reverse, index) agrees
with testing bit `i - 1` of the value, for indices 1..8.  Proved by
exhaustive evaluation. -/
theorem async_update_testBit_ball :
    ∀ v < 256, ∀ i < 9, 1 ≤ i →
      async_update_is_on v i = .ok (Nat.testBit v (i - 1)) := by decide

/-- C2: the switch with 1-based index `i` is reported on exactly when
bit `i - 1` of `v % 256` is set — the semantics of indexing position
`i - 1` of the bit-reversed, zero-left-padded 8-character binary
rendering — and in particular for `v = 5` switches 1 and 3 are on while
switches 2, 4, 5 and 6 are off. -/
theorem bit_decode_rule :
    (∀ v i, 1 ≤ i → i ≤ 8 →
      async_update_is_on v i = .ok (Nat.testBit (v % 256) (i - 1))) ∧
    async_update_is_on 5 1 = .ok true ∧ async_update_is_on 5 2 = .ok false ∧
    async_update_is_on 5 3 = .ok true ∧ async_update_is_on 5 4 = .ok false ∧
    async_update_is_on 5 5 = .ok false ∧ async_update_is_on 5 6 = .ok false := by
  constructor
  · intro v i h1 h8
    have hmod : async_update_is_on v i = async_update_is_on (v % 256) i := by
      unfold async_update_is_on DEFAULT_STATE
      rw [Nat.mod_mod_of_dvd v (dvd_refl 256)]
    rw [hmod]
    exact async_update_testBit_ball (v % 256) (Nat.mod_lt v (by norm_num)) i
      (by omega) h1
  · exact ⟨by decide, by decide, by decide, by decide, by decide, by decide⟩

/-- C2 witness: the rule applied at register value 261 (`% 256 = 5`),
switch index 3. -/
theorem bit_decode_rule_witness : async_update_is_on 261 3 = .ok true :=
  (bit_decode_rule.1 261 3 (by norm_num) (by norm_num)).trans (by decide)

/-- C3 counterexample: from shared state 0, toggling the switch with
index 3 writes the value `0 XOR 3 = 3`, not `0 XOR (1 <<< 2) = 4` as
the claimed formula `s XOR (1 << (i-1))` requires. -/
theorem toggle_formula_counterexample :
    (_handle_switch ⟨1, 3⟩ ⟨0, 0⟩ true).map (fun r => r.1.state) = .ok 3 ∧
    (0 : Nat) ^^^ (1 <<< (3 - 1)) = 4 ∧ (3 : Nat) ≠ 4 := by
  refine ⟨rfl, by decide, by decide⟩

/-- C3 amended: a toggle of the switch with 1-based index `i` against
settled shared state `s` writes `s XOR i` — XOR with the raw index, not
with `1 <<< (i-1)` — records `i` as the active index, stores `s XOR i`
as the new shared state, and the written frame's last two payload bytes
decode back to `s XOR i`; the two formulas agree only for `i ∈ {1, 2}`.
From `s = 0`, `i = 3` the written value is 3. -/
theorem toggle_writes_xor_index (slave i s sw : Nat) (b : Bool)
    (hslave : slave < 256) (hs : s < 256) (hi : i ≤ 8) :
    ∃ msg, _handle_switch ⟨slave, i⟩ ⟨sw, s⟩ b = .ok (⟨i, s ^^^ i⟩, msg, b) ∧
      _binary_list_to_int (pyLastTwo (msg.drop 8)) = .ok (s ^^^ i) ∧
      ((i = 1 ∨ i = 2) → s ^^^ i = s ^^^ (1 <<< (i - 1))) := by
  have hv : s ^^^ i < 256 := by
    have h2 : (256 : Nat) = 2 ^ 8 := by norm_num
    rw [h2]
    exact Nat.xor_lt_two_pow (h2 ▸ hs) (by omega)
  have hvh : (s ^^^ i) >>> 8 < 256 := shiftRight8_lt (by omega)
  refine ⟨[0, 0, 0, 0, 0, 6, slave, 6, 16, 8, (s ^^^ i) >>> 8, (s ^^^ i) &&& 255],
    ?_, ?_, ?_⟩
  · simp [_handle_switch, _construct_modbus_message, pyByte, REGISTER_ADDRESS,
      hslave, hvh, and255_lt, bind, Except.bind, pure, Except.pure,
      show (4104 : Nat) &&& 255 = 8 from by decide]
  · simp [pyLastTwo, _binary_list_to_int, byte_pair_recombine]
  · rintro (rfl | rfl) <;> rfl

/-- C3 amended witness: the toggle at slave 1, index 3, settled state 0
writes value 3. -/
theorem toggle_writes_xor_index_witness :
    ∃ msg, _handle_switch ⟨1, 3⟩ ⟨0, 0⟩ true = .ok (⟨3, 0 ^^^ 3⟩, msg, true) ∧
      _binary_list_to_int (pyLastTwo (msg.drop 8)) = .ok (0 ^^^ 3) ∧
      (((3 : Nat) = 1 ∨ (3 : Nat) = 2) → (0 : Nat) ^^^ 3 = 0 ^^^ (1 <<< (3 - 1))) :=
  toggle_writes_xor_index 1 3 0 0 true (by norm_num) (by norm_num) (by norm_num)

/-- C4: publishing a frame to three subscribers of which one raises does
not behave as claimed: in `RS485TcpPubSub._publish` every callback is
run by `gather`, but the error-logging loop reads the nonexistent
`task.callback_id` attribute, so `_publish` raises `AttributeError` to
its caller instead of logging the offending id. -/
theorem publish_fanout_raises :
    pubsub_publish
      [("a", fun _ => .ok ()), ("b", fun _ => .error "boom"),
       ("c", fun _ => .ok ())] [0] = .error .attributeError ∧
    ([("a", fun _ => Except.ok ()), ("b", fun _ => Except.error "boom"),
       ("c", fun _ => Except.ok ())] : List (String × Callback)).map
      (fun p => p.2 [0]) = [.ok (), .error "boom", .ok ()] := by
  exact ⟨rfl, rfl⟩

/-- After any number of consecutive failed connects starting from delay
`d ≤ max`, the `k`-th backoff sleep is `min (2^k * d) max`. -/
theorem handle_connection_run_replicate (max_retry_delay : Nat) :
    ∀ n d k, d ≤ max_retry_delay → k < n →
      (handle_connection_run max_retry_delay d
          (List.replicate n ConnEvent.fail)).get? k
        = some (min (2 ^ k * d) max_retry_delay) := by
  intro n
  induction n with
  | zero => intro d k _ hk; omega
  | succ m ih =>
      intro d k hd hk
      rw [List.replicate_succ]
      cases k with
      | zero =>
          simp [handle_connection_run, handle_connection_iter]
          omega
      | succ k =>
          have hd2 : min (d * 2) max_retry_delay ≤ max_retry_delay :=
            Nat.min_le_right _ _
          have hrec := ih (min (d * 2) max_retry_delay) k hd2 (by omega)
          simp only [handle_connection_run, handle_connection_iter, List.get?]
          rw [hrec]
          congr 1
          have hp : 1 ≤ 2 ^ k := Nat.one_le_two_pow
          rcases Nat.le_total (d * 2) max_retry_delay with h | h
          · rw [Nat.min_eq_left h]
            ring_nf
          · rw [Nat.min_eq_right h]
            have h1 : max_retry_delay ≤ 2 ^ k * max_retry_delay :=
              Nat.le_mul_of_pos_left _ (by omega)
            have h2 : max_retry_delay ≤ 2 ^ (k + 1) * d := by
              have : 2 ^ (k + 1) * d = 2 ^ k * (d * 2) := by ring
              rw [this]
              calc max_retry_delay ≤ d * 2 := h
                _ ≤ 2 ^ k * (d * 2) := Nat.le_mul_of_pos_left _ (by omega)
            rw [Nat.min_eq_right h1, Nat.min_eq_right h2]

/-- C5 counterexample: after a successful connect whose connection then
ends, the next (first consecutive) failed connect is followed by a sleep
of 2 seconds, not `min (2^(1-1)) 60 = 1` — the backoff sleep in the
`finally` block also runs after a successful session and doubles the
freshly reset delay. -/
theorem backoff_reset_counterexample :
    handle_connection_sleeps 60 [ConnEvent.session, ConnEvent.fail] = [1, 2] ∧
    min (2 ^ (1 - 1)) 60 = 1 := by decide

/-- C5 amended: from a fresh start, the `n`-th consecutive failed
connect is followed by a sleep of `min (2^(n-1)) max` seconds; a
successful connect resets the delay to 1, but the same backoff sleep
runs when the session ends and doubles the delay to `min 2 max`, so the
failed connect that follows a terminated session sleeps `min 2 max`
seconds rather than 1. -/
theorem backoff_schedule :
    (∀ max_retry_delay n k, 1 ≤ max_retry_delay → k < n →
       (handle_connection_sleeps max_retry_delay
           (List.replicate n ConnEvent.fail)).get? k
         = some (min (2 ^ k) max_retry_delay)) ∧
    (∀ max_retry_delay d rest,
       (handle_connection_run max_retry_delay d
           (ConnEvent.session :: ConnEvent.fail :: rest)).get? 1
         = some (min 2 max_retry_delay)) := by
  constructor
  · intro max_retry_delay n k hmax hk
    have h := handle_connection_run_replicate max_retry_delay n 1 k hmax hk
    rw [handle_connection_sleeps, h, Nat.mul_one]
  · intro max_retry_delay d rest
    simp [handle_connection_run, handle_connection_iter]

/-- C5 amended witness: with cap 60, the 7th consecutive failure from a
fresh start sleeps `min (2^6) 60 = 60` seconds, and the failure after a
terminated session sleeps `min 2 60 = 2` seconds. -/
theorem backoff_schedule_witness :
    (handle_connection_sleeps 60 (List.replicate 7 ConnEvent.fail)).get? 6
      = some (min (2 ^ 6) 60) ∧
    (handle_connection_run 60 1
        (ConnEvent.session :: ConnEvent.fail :: [])).get? 1 = some (min 2 60) :=
  ⟨backoff_schedule.1 60 7 6 (by norm_num) (by norm_num),
   backoff_schedule.2 60 1 []⟩

/-- C6 counterexample: a send with no live writer logs an error, writes
nothing — and does not raise: the coroutine completes normally, so the
caller observes exactly what a successful send's caller observes
(`raisedToCaller = false` in both), and no `NotConnected` failure is
surfaced. -/
theorem send_not_connected_counterexample :
    _send_message .noWriter false [0, 0, 0, 0, 0, 6, 1, 3, 16, 8, 0, 1]
      = { errorLogged := true, bytesWritten := none, raisedToCaller := false } ∧
    (_send_message .noWriter false [0, 0, 0, 0, 0, 6, 1, 3, 16, 8, 0, 1]).raisedToCaller
      = (_send_message .live false [0, 0, 0, 0, 0, 6, 1, 3, 16, 8, 0, 1]).raisedToCaller := by
  decide

/-- C6 amended: a send attempted while the writer is absent or closing
logs a "no valid connection" error and returns without transmitting the
bytes; the failure is only logged, never raised or returned to the
caller, and the message is neither queued nor retried (the function has
no other effect). -/
theorem send_without_connection (w : WriterState) (writeRaises : Bool)
    (message : List Nat) (h : w = .noWriter ∨ w = .closing) :
    _send_message w writeRaises message
      = { errorLogged := true, bytesWritten := none, raisedToCaller := false } := by
  rcases h with rfl | rfl <;> rfl

/-- C6 amended witness: the behaviour at a concrete frame with no
writer. -/
theorem send_without_connection_witness :
    _send_message .noWriter true [0, 0, 0, 0, 0, 6, 1, 6, 16, 8, 0, 3]
      = { errorLogged := true, bytesWritten := none, raisedToCaller := false } :=
  send_without_connection .noWriter true _ (Or.inl rfl)

/-- C7 counterexample: a 6-byte inbound frame is not rejected before
dispatch — the read loop publishes every non-empty chunk, with no length
check, so the short frame does reach subscriber dispatch. -/
theorem short_frame_reaches_dispatch :
    manage_connection_step [0, 0, 0, 0, 0, 6]
      = .publishFrame [0, 0, 0, 0, 0, 6] ∧
    ([0, 0, 0, 0, 0, 6] : List Nat).length < 8 := by decide

/-- C7 amended: a frame shorter than 8 bytes is dispatched to
subscribers like any non-empty chunk, and each subscriber's callback
rejects it at entry: it logs "Data too short" and returns with no state
change, no re-read, and no update of the switch's boolean state. -/
theorem short_frame_dropped_in_callback (self : SwitchSelf) (entry : EntryData)
    (is_on : Bool) (data : List Nat) (h : data.length < 8) :
    manage_connection_step data = (if data = [] then .breakLoop else .publishFrame data) ∧
    _subscribe_callback self entry is_on data
      = .ok { entry := entry, readIssued := false, is_on := is_on,
              shortFrame := true } := by
  refine ⟨rfl, ?_⟩
  rcases data with _ | ⟨a, _ | ⟨b, _ | ⟨c, _ | ⟨d, _ | ⟨e, _ | ⟨f, _ | ⟨g, _ | ⟨x, t⟩⟩⟩⟩⟩⟩⟩⟩
  all_goals first
    | rfl
    | (exfalso; simp [List.length] at h; omega)

/-- C7 amended witness: a concrete 6-byte frame is published by the read
loop and then dropped inside the callback with no state change. -/
theorem short_frame_dropped_in_callback_witness :
    manage_connection_step [0, 0, 0, 0, 0, 6]
      = (if ([0, 0, 0, 0, 0, 6] : List Nat) = [] then .breakLoop
         else .publishFrame [0, 0, 0, 0, 0, 6]) ∧
    _subscribe_callback ⟨1, 1⟩ ⟨1, 256⟩ false [0, 0, 0, 0, 0, 6]
      = .ok { entry := ⟨1, 256⟩, readIssued := false, is_on := false,
              shortFrame := true } :=
  short_frame_dropped_in_callback ⟨1, 1⟩ ⟨1, 256⟩ false [0, 0, 0, 0, 0, 6]
    (by decide)

/-- `createTask` actions contribute their ids to `createdTasks` and
nothing to `awaitedTasks`. -/
theorem createdTasks_map_append (ids : List String) (rest : List PubAction) :
    createdTasks (ids.map PubAction.createTask ++ rest)
      = ids ++ createdTasks rest := by
  induction ids with
  | nil => rfl
  | cons a l ih => simp [createdTasks, ih]

/-- `awaitedTasks` ignores `createTask` actions. -/
theorem awaitedTasks_map_append (ids : List String) (rest : List PubAction) :
    awaitedTasks (ids.map PubAction.createTask ++ rest)
      = awaitedTasks rest := by
  induction ids with
  | nil => rfl
  | cons a l ih => simp [awaitedTasks, ih]

/-- C9 counterexample: with a single subscriber `"a"`, the publisher's
`_publish` creates the callback task but awaits nothing before
returning, so the read loop's next `reader.read` can begin while the
callback of the previous frame is still in flight. -/
theorem read_loop_no_join_counterexample :
    createdTasks (publisher_publish_actions ["a"]) = ["a"] ∧
    awaitedTasks (publisher_publish_actions ["a"]) = [] := ⟨rfl, rfl⟩

/-- C9 amended: `RS485TcpPublisher._publish` spawns one task per
subscriber and awaits none of them before returning (its `gather` is
commented out), so the read loop does not wait for the callbacks of
frame `n` before reading frame `n+1`; only the `RS485TcpPubSub` variant
joins every spawned task before returning. -/
theorem publish_join_behaviour (ids : List String) :
    createdTasks (publisher_publish_actions ids) = ids ∧
    awaitedTasks (publisher_publish_actions ids) = [] ∧
    createdTasks (pubsub_publish_actions ids) = ids ∧
    awaitedTasks (pubsub_publish_actions ids) = ids := by
  refine ⟨?_, ?_, ?_, ?_⟩
  · rw [publisher_publish_actions]
    simp [createdTasks, createdTasks_map_append]
  · rw [publisher_publish_actions]
    simp [awaitedTasks, awaitedTasks_map_append]
  · rw [pubsub_publish_actions]
    simp [createdTasks, createdTasks_map_append]
  · rw [pubsub_publish_actions]
    simp [awaitedTasks, awaitedTasks_map_append]

/-- C10: every inbound frame of length at least 8 whose byte 5 (payload
length) is 6, whose byte 7 (function code) is 3, and whose final byte is
0 makes `_subscribe_callback` raise an unhandled `ValueError` from
`math.log(0, 2)` while computing the active switch index — before the
slave-address comparison and before any state update, for every
subscriber identity and prior state. -/
theorem log_zero_value_error (self : SwitchSelf) (entry : EntryData)
    (is_on : Bool) (data : List Nat) (hlen : 8 ≤ data.length)
    (h5 : data.get? 5 = some 6) (h7 : data.get? 7 = some 3)
    (hlast : data.getLast? = some 0) :
    _subscribe_callback self entry is_on data = .error .valueError := by
  rcases data with _ | ⟨b0, _ | ⟨b1, _ | ⟨b2, _ | ⟨b3, _ | ⟨b4, _ | ⟨b5, _ | ⟨b6, _ | ⟨b7, t⟩⟩⟩⟩⟩⟩⟩⟩ <;>
    simp [List.length] at hlen
  simp [List.get?] at h5 h7
  subst h5 h7
  rcases t with _ | ⟨x, t'⟩
  · simp [List.getLast?] at hlast
  · have hl : (x :: t').getLast? = some 0 := by
      simpa [List.getLast?_cons_cons] using hlast
    simp [_subscribe_callback, pyLast, hl, int_math_log2, bind, Except.bind]

/-- C10 witness: the crash at the concrete 12-byte frame
`(0,0,0,0,0,6,1,3,0,0,0,0)`. -/
theorem log_zero_value_error_witness :
    _subscribe_callback ⟨1, 1⟩ ⟨1, 256⟩ false [0, 0, 0, 0, 0, 6, 1, 3, 0, 0, 0, 0]
      = .error .valueError :=
  log_zero_value_error ⟨1, 1⟩ ⟨1, 256⟩ false _ (by decide) (by decide) (by decide)
    (by decide)
